import Mathlib

/-!
Verification of the connection-lifecycle managers in `src/api/external.ts`
(`S3Connection`, `FTPConnection`, `SFTPConnection`).

Modelling conventions:
* Native client objects (`S3Client`, `ftp.Client`, `SFTPClient`) are opaque
  references, modelled as `Nat` identifiers.
* A thrown JavaScript value is modelled by `Thrown`.  The source only ever
  throws `new Error(message)`, modelled by `Thrown.jsError`; the
  `Thrown.typedError` constructor is modelled from the spec (the error
  taxonomy of §7, carrying kind, backend and cause) so that claims about
  typed errors can be stated and compared with what the code produces.
* The network is external: `connect` takes the outcome of the driver call
  (`client.access` / `client.connect`) as an explicit argument, carrying the
  driver error's message on failure (the code only reads `error.message`).
* Every mutating method returns a `Run`: the post-state, the thrown value if
  the method threw, and the list of driver-level effects it performed.
* JavaScript `||` defaulting is modelled by `jsOr*` (note `0`, `""` and
  `false` are falsy); `if (this.client)` on an object reference is modelled
  by `jsTruthyObj`, which is always `true` for an object.
-/

/-- Backend discriminator for the three connection classes. -/
inductive Backend
  | objectStorage
  | ftp
  | sftp
deriving DecidableEq, Repr

/-- Error kinds of the spec's error taxonomy (§7).  Modelled from the spec:
the source defines no such taxonomy; the kinds exist here so claims about
them can be stated against what the code actually throws. -/
inductive ErrKind
  | ConfigInvalid
  | HandshakeFailed
  | NotConnected
  | AlreadyDisconnected
  | StateViolation
deriving DecidableEq, Repr

/-- A thrown JavaScript value.  `jsError m` is `new Error(m)`, the only kind
of value the source ever throws.  `typedError` is modelled from the spec
(§4.4/§7): a structured error carrying kind, backend type and original
cause, which the spec claims the core raises. -/
inductive Thrown
  | jsError (message : String)
  | typedError (kind : ErrKind) (backend : Backend) (cause : String)
deriving DecidableEq, Repr

/-- Whether a thrown value is a typed taxonomy error of the given kind
(reading the `kind` field the spec's taxonomy prescribes; a plain
`new Error(...)` has no such field). -/
def Thrown.isTypedOfKind : Thrown → ErrKind → Bool
  | .typedError k _ _, k' => k == k'
  | .jsError _, _ => false

/-- JavaScript `x || d` for an optional number (`0` is falsy). -/
def jsOrNat : Option Nat → Nat → Nat
  | some v, d => if v = 0 then d else v
  | none, d => d

/-- JavaScript `x || d` for an optional string (`""` is falsy). -/
def jsOrStr : Option String → String → String
  | some s, d => if s = "" then d else s
  | none, d => d

/-- JavaScript `x || d` for an optional boolean (`false` is falsy). -/
def jsOrBool : Option Bool → Bool → Bool
  | some b, d => if b then b else d
  | none, d => d

/-- Truthiness of an object reference: a JavaScript object is always truthy,
so `if (this.client)` always takes the then-branch once the constructor has
assigned the field. -/
def jsTruthyObj (_ : Nat) : Bool :=
  true

/-- Credential pair nested inside an `S3Config` (`credentials` field of the
`S3Config` interface). -/
structure S3Credentials where
  accessKeyId : String
  secretAccessKey : String
deriving DecidableEq, Repr

/-- The `S3Config` interface.  `region` is declared required; `Option`
models a caller passing `undefined` through the untyped boundary, which the
constructor never checks.  `credentials` holds a reference (store address)
to a nested credentials object, mirroring that the nested object is shared
by reference, not copied. -/
structure S3Config where
  region : Option String
  credentials : Option Nat
  endpoint : Option String
  forcePathStyle : Option Bool
deriving DecidableEq, Repr

/-- The `FTPConfig` interface.  `host` is declared required (`Option`
models its absence at runtime); `secureOptions` has type `any` in the
source and is modelled as an opaque object reference. -/
structure FTPConfig where
  host : Option String
  port : Option Nat
  user : Option String
  password : Option String
  secure : Option Bool
  secureOptions : Option Nat
deriving DecidableEq, Repr

/-- The `SFTPConfig` interface.  `privateKey` is `string | Buffer` in the
source, modelled as a string. -/
structure SFTPConfig where
  host : Option String
  port : Option Nat
  username : Option String
  password : Option String
  privateKey : Option String
  passphrase : Option String
deriving DecidableEq, Repr

/-- The `S3ClientConfig` object the `S3Connection` constructor assembles and
passes to `new S3Client(...)`. -/
structure S3ClientArgs where
  region : Option String
  credentials : Option Nat
  endpoint : Option String
  forcePathStyle : Option Bool
deriving DecidableEq, Repr

/-- The argument object `FTPConnection.connect` passes to
`this.client.access(...)`, with the source's `||` defaults applied. -/
structure FTPAccessArgs where
  host : Option String
  port : Nat
  user : String
  password : String
  secure : Bool
  secureOptions : Option Nat
deriving DecidableEq, Repr

/-- The `ConnectConfig` object `SFTPConnection.connect` assembles and passes
to `this.client.connect(...)`; only `port` has a `||` default. -/
structure SFTPConnectArgs where
  host : Option String
  port : Nat
  username : Option String
  password : Option String
  privateKey : Option String
  passphrase : Option String
deriving DecidableEq, Repr

/-- Driver-level calls a method performs, in order. -/
inductive Effect
  | s3ClientNew (args : S3ClientArgs)
  | s3Destroy (client : Nat)
  | ftpAccess (client : Nat) (args : FTPAccessArgs)
  | ftpClose (client : Nat)
  | sftpConnect (client : Nat) (args : SFTPConnectArgs)
  | sftpEnd (client : Nat)
deriving DecidableEq, Repr

/-- Whether an effect involves network I/O.  Constructing an `S3Client` and
calling `destroy()` on it are purely local (the AWS SDK resolves region and
credentials lazily at request time); FTP/SFTP access, connect, close and
end all talk to the remote server. -/
def Effect.isNetwork : Effect → Bool
  | .s3ClientNew _ => false
  | .s3Destroy _ => false
  | .ftpAccess _ _ => true
  | .ftpClose _ => true
  | .sftpConnect _ _ => true
  | .sftpEnd _ => true

/-- Whether an effect is a connection handshake (`client.access` for FTP,
`client.connect` for SFTP). -/
def Effect.isHandshake : Effect → Bool
  | .ftpAccess _ _ => true
  | .sftpConnect _ _ => true
  | _ => false

/-- Result of running one method: post-state, the thrown value if the
method threw, and the driver-level effects performed. -/
structure Run (σ : Type) where
  state : σ
  err : Option Thrown
  effects : List Effect
deriving DecidableEq, Repr

/-- Result of running a constructor: the constructed object or a thrown
value, plus the effects performed. -/
structure ConstructRun (σ : Type) where
  result : Except Thrown σ
  effects : List Effect
deriving Repr

/-- The `S3Connection` class: `client` and `config` fields plus the
`connected` flag. -/
structure S3Connection where
  client : Nat
  config : S3Config
  connected : Bool
deriving DecidableEq, Repr

/-- The `S3Connection` constructor: stores the config as passed (no
validation of any field), assembles the `S3ClientConfig`, constructs the
client (a local operation that does not throw for an absent region — the
SDK resolves it lazily) and sets `connected = true`. -/
def S3Connection.construct (config : S3Config) (clientRef : Nat) :
    ConstructRun S3Connection :=
  let s3Args : S3ClientArgs :=
    { region := config.region
      credentials := config.credentials
      endpoint := config.endpoint
      forcePathStyle := config.forcePathStyle }
  { result := .ok { client := clientRef, config := config, connected := true }
    effects := [.s3ClientNew s3Args] }

/-- `S3Connection.getClient`: throws unless `connected`, else returns the
stored client reference. -/
def S3Connection.getClient (m : S3Connection) : Except Thrown Nat :=
  if !m.connected then
    .error (.jsError "S3 connection not initialized")
  else
    .ok m.client

/-- `S3Connection.isConnected`. -/
def S3Connection.isConnected (m : S3Connection) : Bool :=
  m.connected

/-- `S3Connection.disconnect`: guarded by `if (this.client)` — a truthiness
test on the client object, which is always truthy — so every call invokes
`this.client.destroy()` and sets `connected = false`. -/
def S3Connection.disconnect (m : S3Connection) : Run S3Connection :=
  if jsTruthyObj m.client then
    { state := { m with connected := false }
      err := none
      effects := [.s3Destroy m.client] }
  else
    { state := m, err := none, effects := [] }

/-- `S3Connection.getConfig`: `return { ...this.config }` — a new object
with the same field values (a shallow copy: the `credentials` reference is
copied as a reference). -/
def S3Connection.getConfig (m : S3Connection) : S3Config :=
  { region := m.config.region
    credentials := m.config.credentials
    endpoint := m.config.endpoint
    forcePathStyle := m.config.forcePathStyle }

/-- The `FTPConnection` class. -/
structure FTPConnection where
  client : Nat
  config : FTPConfig
  connected : Bool
deriving DecidableEq, Repr

/-- The `FTPConnection` constructor: stores the config as passed (no
validation), creates a fresh `ftp.Client` (local, no I/O, cannot throw) and
leaves `connected = false`. -/
def FTPConnection.construct (config : FTPConfig) (clientRef : Nat) :
    ConstructRun FTPConnection :=
  { result := .ok { client := clientRef, config := config, connected := false }
    effects := [] }

/-- The argument object `FTPConnection.connect` passes to
`this.client.access(...)`: each field of the config with the source's `||`
defaults applied. -/
def FTPConnection.accessArgs (m : FTPConnection) : FTPAccessArgs :=
  { host := m.config.host
    port := jsOrNat m.config.port 21
    user := jsOrStr m.config.user "anonymous"
    password := jsOrStr m.config.password ""
    secure := jsOrBool m.config.secure false
    secureOptions := m.config.secureOptions }

/-- `FTPConnection.connect`: assembles the access arguments with the
source's `||` defaults and calls `this.client.access(...)` — always, with
no state guard.  On success sets `connected = true`; on failure sets
`connected = false` and throws
`new Error("FTP connection failed: " + cause.message)`. -/
def FTPConnection.connect (m : FTPConnection) (outcome : Except String Unit) :
    Run FTPConnection :=
  let args : FTPAccessArgs := m.accessArgs
  match outcome with
  | .ok _ =>
      { state := { m with connected := true }
        err := none
        effects := [.ftpAccess m.client args] }
  | .error msg =>
      { state := { m with connected := false }
        err := some (.jsError ("FTP connection failed: " ++ msg))
        effects := [.ftpAccess m.client args] }

/-- `FTPConnection.getClient`: throws unless `connected`, else returns the
stored client reference. -/
def FTPConnection.getClient (m : FTPConnection) : Except Thrown Nat :=
  if !m.connected then
    .error (.jsError "FTP not connected. Call connect() first.")
  else
    .ok m.client

/-- `FTPConnection.isConnected`. -/
def FTPConnection.isConnected (m : FTPConnection) : Bool :=
  m.connected

/-- `FTPConnection.disconnect`: guarded by `if (this.connected)`; when
connected it calls `this.client.close()` and sets `connected = false`,
otherwise it does nothing. -/
def FTPConnection.disconnect (m : FTPConnection) : Run FTPConnection :=
  if m.connected then
    { state := { m with connected := false }
      err := none
      effects := [.ftpClose m.client] }
  else
    { state := m, err := none, effects := [] }

/-- `FTPConnection.getConfig`: `return { ...this.config }`, a shallow
field-wise copy. -/
def FTPConnection.getConfig (m : FTPConnection) : FTPConfig :=
  { host := m.config.host
    port := m.config.port
    user := m.config.user
    password := m.config.password
    secure := m.config.secure
    secureOptions := m.config.secureOptions }

/-- The mutating operations available on an `FTPConnection`, with the
driver outcome a `connect` attempt observes. -/
inductive FTPOp
  | connect (outcome : Except String Unit)
  | disconnect
deriving Repr

/-- Whether an operation is a `connect` whose driver call succeeded. -/
def FTPOp.isSuccessfulConnect : FTPOp → Bool
  | .connect (.ok _) => true
  | _ => false

/-- One mutating step on an `FTPConnection` (post-state only). -/
def FTPConnection.step (m : FTPConnection) : FTPOp → FTPConnection
  | .connect o => (m.connect o).state
  | .disconnect => m.disconnect.state

/-- Run a sequence of mutating operations on an `FTPConnection`. -/
def FTPConnection.runOps (m : FTPConnection) : List FTPOp → FTPConnection
  | [] => m
  | op :: ops => (m.step op).runOps ops

/-- The `SFTPConnection` class. -/
structure SFTPConnection where
  client : Nat
  config : SFTPConfig
  connected : Bool
deriving DecidableEq, Repr

/-- The `SFTPConnection` constructor: stores the config as passed (no
validation), creates a fresh `SFTPClient` (local, no I/O, cannot throw) and
leaves `connected = false`. -/
def SFTPConnection.construct (config : SFTPConfig) (clientRef : Nat) :
    ConstructRun SFTPConnection :=
  { result := .ok { client := clientRef, config := config, connected := false }
    effects := [] }

/-- The `ConnectConfig` object `SFTPConnection.connect` passes to
`this.client.connect(...)`: each field of the config, with a `||` default
only for `port`. -/
def SFTPConnection.connectArgs (m : SFTPConnection) : SFTPConnectArgs :=
  { host := m.config.host
    port := jsOrNat m.config.port 22
    username := m.config.username
    password := m.config.password
    privateKey := m.config.privateKey
    passphrase := m.config.passphrase }

/-- `SFTPConnection.connect`: assembles the `ConnectConfig` (only `port`
has a `||` default) and calls `this.client.connect(...)` — always, with no
state guard.  On success sets `connected = true`; on failure sets
`connected = false` and throws
`new Error("SFTP connection failed: " + cause.message)`. -/
def SFTPConnection.connect (m : SFTPConnection) (outcome : Except String Unit) :
    Run SFTPConnection :=
  let args : SFTPConnectArgs := m.connectArgs
  match outcome with
  | .ok _ =>
      { state := { m with connected := true }
        err := none
        effects := [.sftpConnect m.client args] }
  | .error msg =>
      { state := { m with connected := false }
        err := some (.jsError ("SFTP connection failed: " ++ msg))
        effects := [.sftpConnect m.client args] }

/-- `SFTPConnection.getClient`: throws unless `connected`, else returns the
stored client reference. -/
def SFTPConnection.getClient (m : SFTPConnection) : Except Thrown Nat :=
  if !m.connected then
    .error (.jsError "SFTP not connected. Call connect() first.")
  else
    .ok m.client

/-- `SFTPConnection.isConnected`. -/
def SFTPConnection.isConnected (m : SFTPConnection) : Bool :=
  m.connected

/-- `SFTPConnection.disconnect`: guarded by `if (this.connected)`; when
connected it calls `this.client.end()` and sets `connected = false`,
otherwise it does nothing. -/
def SFTPConnection.disconnect (m : SFTPConnection) : Run SFTPConnection :=
  if m.connected then
    { state := { m with connected := false }
      err := none
      effects := [.sftpEnd m.client] }
  else
    { state := m, err := none, effects := [] }

/-- `SFTPConnection.getConfig`: `return { ...this.config }`, a shallow
field-wise copy. -/
def SFTPConnection.getConfig (m : SFTPConnection) : SFTPConfig :=
  { host := m.config.host
    port := m.config.port
    username := m.config.username
    password := m.config.password
    privateKey := m.config.privateKey
    passphrase := m.config.passphrase }

/-- The mutating operations available on an `SFTPConnection`. -/
inductive SFTPOp
  | connect (outcome : Except String Unit)
  | disconnect
deriving Repr

/-- Whether an operation is a `connect` whose driver call succeeded. -/
def SFTPOp.isSuccessfulConnect : SFTPOp → Bool
  | .connect (.ok _) => true
  | _ => false

/-- One mutating step on an `SFTPConnection` (post-state only). -/
def SFTPConnection.step (m : SFTPConnection) : SFTPOp → SFTPConnection
  | .connect o => (m.connect o).state
  | .disconnect => m.disconnect.state

/-- Run a sequence of mutating operations on an `SFTPConnection`. -/
def SFTPConnection.runOps (m : SFTPConnection) : List SFTPOp → SFTPConnection
  | [] => m
  | op :: ops => (m.step op).runOps ops

/-- Dereference a credentials reference in the credentials store (the heap
of nested credential objects). -/
def derefCreds (store : List S3Credentials) : Option Nat → Option S3Credentials
  | none => none
  | some a => store[a]?

/-- Fully resolved view of an `S3Config` under a credentials store: what a
caller observes when reading the config, nested credentials included. -/
structure S3ConfigView where
  region : Option String
  credentials : Option S3Credentials
  endpoint : Option String
  forcePathStyle : Option Bool
deriving DecidableEq, Repr

/-- Observe an `S3Config` under a credentials store, dereferencing the
nested credentials object. -/
def observeS3 (store : List S3Credentials) (c : S3Config) : S3ConfigView :=
  { region := c.region
    credentials := derefCreds store c.credentials
    endpoint := c.endpoint
    forcePathStyle := c.forcePathStyle }

/-- Contents of the `any`-typed TLS options object nested inside an
`FTPConfig` (`secureOptions` field), kept opaque as a single payload. -/
structure FTPSecureOptions where
  contents : String
deriving DecidableEq, Repr

/-- Dereference a secureOptions reference in the store of nested
TLS-options objects (the heap of `any`-typed option objects). -/
def derefSecureOptions (store : List FTPSecureOptions) :
    Option Nat → Option FTPSecureOptions
  | none => none
  | some a => store[a]?

/-- Fully resolved view of an `FTPConfig` under a secureOptions store: what
a caller observes when reading the config, nested TLS options included. -/
structure FTPConfigView where
  host : Option String
  port : Option Nat
  user : Option String
  password : Option String
  secure : Option Bool
  secureOptions : Option FTPSecureOptions
deriving DecidableEq, Repr

/-- Observe an `FTPConfig` under a secureOptions store, dereferencing the
nested TLS-options object. -/
def observeFTP (store : List FTPSecureOptions) (c : FTPConfig) : FTPConfigView :=
  { host := c.host
    port := c.port
    user := c.user
    password := c.password
    secure := c.secure
    secureOptions := derefSecureOptions store c.secureOptions }

/-- Helper: running operations none of which is a successful connect leaves
an unconnected FTP manager unconnected. -/
theorem ftp_runOps_unconnected (m : FTPConnection) (ops : List FTPOp)
    (hm : m.connected = false) (h : ∀ op ∈ ops, op.isSuccessfulConnect = false) :
    (m.runOps ops).connected = false := by
  induction ops generalizing m with
  | nil => exact hm
  | cons op ops ih =>
      have hop : op.isSuccessfulConnect = false := h op (List.mem_cons_self op ops)
      have htail : ∀ o ∈ ops, o.isSuccessfulConnect = false :=
        fun o ho => h o (List.mem_cons_of_mem op ho)
      have hstep : (m.step op).connected = false := by
        cases op with
        | connect o =>
            cases o with
            | ok u => simp [FTPOp.isSuccessfulConnect] at hop
            | error msg => rfl
        | disconnect => simp [FTPConnection.step, FTPConnection.disconnect, hm]
      exact ih (m.step op) hstep htail

/-- Helper: running operations none of which is a successful connect leaves
an unconnected SFTP manager unconnected. -/
theorem sftp_runOps_unconnected (m : SFTPConnection) (ops : List SFTPOp)
    (hm : m.connected = false) (h : ∀ op ∈ ops, op.isSuccessfulConnect = false) :
    (m.runOps ops).connected = false := by
  induction ops generalizing m with
  | nil => exact hm
  | cons op ops ih =>
      have hop : op.isSuccessfulConnect = false := h op (List.mem_cons_self op ops)
      have htail : ∀ o ∈ ops, o.isSuccessfulConnect = false :=
        fun o ho => h o (List.mem_cons_of_mem op ho)
      have hstep : (m.step op).connected = false := by
        cases op with
        | connect o =>
            cases o with
            | ok u => simp [SFTPOp.isSuccessfulConnect] at hop
            | error msg => rfl
        | disconnect => simp [SFTPConnection.step, SFTPConnection.disconnect, hm]
      exact ih (m.step op) hstep htail

/-- C1 counterexample: constructing each manager with a config lacking its
required field (no region for object storage, no host for FTP/SFTP)
succeeds and returns a manager — construction does not fail with a
ConfigInvalid error (or at all). -/
theorem c1_counterexample :
    (S3Connection.construct
      { region := none, credentials := none, endpoint := none,
        forcePathStyle := none } 0).result =
      .ok { client := 0,
            config := { region := none, credentials := none, endpoint := none,
                        forcePathStyle := none },
            connected := true } ∧
    (FTPConnection.construct
      { host := none, port := none, user := none, password := none,
        secure := none, secureOptions := none } 1).result =
      .ok { client := 1,
            config := { host := none, port := none, user := none,
                        password := none, secure := none, secureOptions := none },
            connected := false } ∧
    (SFTPConnection.construct
      { host := none, port := none, username := none, password := none,
        privateKey := none, passphrase := none } 2).result =
      .ok { client := 2,
            config := { host := none, port := none, username := none,
                        password := none, privateKey := none, passphrase := none },
            connected := false } :=
  ⟨rfl, rfl, rfl⟩

/-- C1 (amended): construction performs no required-field validation: for
every config — required fields present or absent — each constructor
succeeds without throwing any error (in particular never a ConfigInvalid
error), stores the config as passed, and performs no network I/O. -/
theorem c1_construct_unvalidated (cfg : S3Config) (r : Nat)
    (fcfg : FTPConfig) (fr : Nat) (scfg : SFTPConfig) (sr : Nat) :
    (S3Connection.construct cfg r).result =
      .ok { client := r, config := cfg, connected := true } ∧
    ((S3Connection.construct cfg r).effects.all fun e => !e.isNetwork) = true ∧
    (FTPConnection.construct fcfg fr).result =
      .ok { client := fr, config := fcfg, connected := false } ∧
    (FTPConnection.construct fcfg fr).effects = [] ∧
    (SFTPConnection.construct scfg sr).result =
      .ok { client := sr, config := scfg, connected := false } ∧
    (SFTPConnection.construct scfg sr).effects = [] :=
  ⟨rfl, rfl, rfl, rfl, rfl, rfl⟩

/-- C2 counterexample: an FTP manager that connected and then disconnected
accepts a further connect(): with a succeeding handshake the call throws
nothing and the manager is Connected again — it is not rejected with an
AlreadyDisconnected (or any) error. -/
theorem c2_counterexample :
    let m0 : FTPConnection :=
      { client := 0,
        config := { host := some "ftp.example.com", port := none, user := none,
                    password := none, secure := none, secureOptions := none },
        connected := false }
    let m1 := (m0.connect (.ok ())).state
    let m2 := m1.disconnect.state
    let r := m2.connect (.ok ())
    m1.isConnected = true ∧ m2.isConnected = false ∧
    r.err = none ∧ r.state.isConnected = true := by
  exact ⟨rfl, rfl, rfl, rfl⟩

/-- C2 (amended): connect() performs no state check, so a manager that has
transitioned to Disconnected is silently reconnected by a subsequent
connect() whose handshake succeeds: nothing is thrown (no
AlreadyDisconnected error exists in the code) and the manager ends
Connected.  Holds for both FTP and SFTP managers. -/
theorem c2_disconnected_reconnects (m : FTPConnection) (m' : SFTPConnection) :
    ((m.disconnect.state).connect (.ok ())).err = none ∧
    ((m.disconnect.state).connect (.ok ())).state.isConnected = true ∧
    ((m'.disconnect.state).connect (.ok ())).err = none ∧
    ((m'.disconnect.state).connect (.ok ())).state.isConnected = true :=
  ⟨rfl, rfl, rfl, rfl⟩

/-- C3 counterexample: calling connect() on an already-Connected FTP manager
is not a no-op: the second call performs another client.access handshake
(its effect list contains a handshake driver call). -/
theorem c3_counterexample :
    let m0 : FTPConnection :=
      { client := 0,
        config := { host := some "ftp.example.com", port := none, user := none,
                    password := none, secure := none, secureOptions := none },
        connected := false }
    let m1 := (m0.connect (.ok ())).state
    let r := m1.connect (.ok ())
    m1.isConnected = true ∧
    r.effects = [Effect.ftpAccess 0
      { host := some "ftp.example.com", port := 21, user := "anonymous",
        password := "", secure := false, secureOptions := none }] ∧
    Effect.isHandshake (Effect.ftpAccess 0
      { host := some "ftp.example.com", port := 21, user := "anonymous",
        password := "", secure := false, secureOptions := none }) = true := by
  exact ⟨rfl, rfl, rfl⟩

/-- C3 (amended): connect() on an already-Connected manager is not a no-op:
it performs a second handshake (one more driver access/connect call, since
the no-op guard of the spec is absent from the code).  The stored handle
reference is unchanged by the call, and when the second handshake succeeds
the manager remains Connected with no error.  Holds for FTP and SFTP. -/
theorem c3_second_connect_rehandshakes (m : FTPConnection) (m' : SFTPConnection) :
    let m1 := (m.connect (.ok ())).state
    let r := m1.connect (.ok ())
    let n1 := (m'.connect (.ok ())).state
    let s := n1.connect (.ok ())
    (m1.isConnected = true ∧
      r.effects = [Effect.ftpAccess m.client m.accessArgs] ∧
      r.state.client = m.client ∧ r.err = none ∧ r.state.isConnected = true) ∧
    (n1.isConnected = true ∧
      s.effects = [Effect.sftpConnect m'.client m'.connectArgs] ∧
      s.state.client = m'.client ∧ s.err = none ∧ s.state.isConnected = true) := by
  exact ⟨⟨rfl, rfl, rfl, rfl, rfl⟩, ⟨rfl, rfl, rfl, rfl, rfl⟩⟩

/-- C4 counterexample: getConfig() is only a shallow copy, for both classes
that carry a nested object: with the object-storage credentials object
stored at address 0, mutating it through the reference held by the returned
copy changes what a subsequent getConfig() observes, and likewise for the
FTP manager's nested secureOptions object — refuting independence of the
copy for nested fields. -/
theorem c4_counterexample :
    let store0 : List S3Credentials :=
      [{ accessKeyId := "AKIA", secretAccessKey := "SECRET" }]
    let m : S3Connection :=
      { client := 0,
        config := { region := some "us-east-1", credentials := some 0,
                    endpoint := none, forcePathStyle := none },
        connected := true }
    let store1 := store0.set 0 { accessKeyId := "AKIA", secretAccessKey := "TAMPERED" }
    let fstore0 : List FTPSecureOptions := [{ contents := "rejectUnauthorized" }]
    let f : FTPConnection :=
      { client := 1,
        config := { host := some "ftp.example.com", port := none, user := none,
                    password := none, secure := some true,
                    secureOptions := some 0 },
        connected := false }
    let fstore1 := fstore0.set 0 { contents := "tampered" }
    (m.getConfig).credentials = some 0 ∧
    observeS3 store1 m.getConfig ≠ observeS3 store0 m.getConfig ∧
    (f.getConfig).secureOptions = some 0 ∧
    observeFTP fstore1 f.getConfig ≠ observeFTP fstore0 f.getConfig := by
  refine ⟨rfl, by decide, rfl, by decide⟩

/-- C4 (amended): getConfig() returns a shallow copy: the returned object
carries the same field values as the stored config (so reassigning a
top-level field of the copy cannot reach the manager), but a nested object
— the object-storage credentials pair, the FTP secureOptions — is shared by
reference, so mutating it through the copy's reference changes what every
subsequent getConfig() observes. -/
theorem c4_getConfig_shallow (m : S3Connection) (store : List S3Credentials)
    (a : Nat) (c' : S3Credentials)
    (h : m.config.credentials = some a) (ha : a < store.length)
    (f : FTPConnection) (fstore : List FTPSecureOptions)
    (b : Nat) (o' : FTPSecureOptions)
    (hb : f.config.secureOptions = some b) (hbl : b < fstore.length) :
    (m.getConfig = m.config ∧
     (m.getConfig).credentials = m.config.credentials ∧
     (observeS3 (store.set a c') m.getConfig).credentials = some c') ∧
    (f.getConfig = f.config ∧
     (f.getConfig).secureOptions = f.config.secureOptions ∧
     (observeFTP (fstore.set b o') f.getConfig).secureOptions = some o') := by
  refine ⟨⟨rfl, rfl, ?_⟩, ⟨rfl, rfl, ?_⟩⟩
  · simp [observeS3, derefCreds, S3Connection.getConfig, h,
      List.getElem?_set_eq_of_lt c' ha]
  · simp [observeFTP, derefSecureOptions, FTPConnection.getConfig, hb,
      List.getElem?_set_eq_of_lt o' hbl]

/-- Witness for the C4 amended theorem at a concrete manager and store per
class. -/
theorem c4_witness :
    ({ client := 0,
       config := { region := some "us-east-1", credentials := some 0,
                   endpoint := none, forcePathStyle := none },
       connected := true } : S3Connection).config.credentials = some 0 ∧
    (0 : Nat) < ([{ accessKeyId := "AKIA", secretAccessKey := "SECRET" }] :
      List S3Credentials).length ∧
    (observeS3
      (([{ accessKeyId := "AKIA", secretAccessKey := "SECRET" }] :
          List S3Credentials).set 0
        { accessKeyId := "AKIA", secretAccessKey := "ROTATED" })
      ({ client := 0,
         config := { region := some "us-east-1", credentials := some 0,
                     endpoint := none, forcePathStyle := none },
         connected := true } : S3Connection).getConfig).credentials =
      some { accessKeyId := "AKIA", secretAccessKey := "ROTATED" } ∧
    ({ client := 1,
       config := { host := some "ftp.example.com", port := none, user := none,
                   password := none, secure := some true,
                   secureOptions := some 0 },
       connected := false } : FTPConnection).config.secureOptions = some 0 ∧
    (0 : Nat) < ([{ contents := "rejectUnauthorized" }] :
      List FTPSecureOptions).length ∧
    (observeFTP
      (([{ contents := "rejectUnauthorized" }] :
          List FTPSecureOptions).set 0 { contents := "downgraded" })
      ({ client := 1,
         config := { host := some "ftp.example.com", port := none, user := none,
                     password := none, secure := some true,
                     secureOptions := some 0 },
         connected := false } : FTPConnection).getConfig).secureOptions =
      some { contents := "downgraded" } := by
  have h := c4_getConfig_shallow
    { client := 0,
      config := { region := some "us-east-1", credentials := some 0,
                  endpoint := none, forcePathStyle := none },
      connected := true }
    [{ accessKeyId := "AKIA", secretAccessKey := "SECRET" }] 0
    { accessKeyId := "AKIA", secretAccessKey := "ROTATED" } rfl (by decide)
    { client := 1,
      config := { host := some "ftp.example.com", port := none, user := none,
                  password := none, secure := some true,
                  secureOptions := some 0 },
      connected := false }
    [{ contents := "rejectUnauthorized" }] 0
    { contents := "downgraded" } rfl (by decide)
  exact ⟨rfl, by decide, h.1.2.2, rfl, by decide, h.2.2.2⟩

/-- C5 counterexample: an FTP connect() observing an unreachable host
rejects with a plain Error whose message is a string embedding the cause's
message — a value carrying no kind field, hence not a typed error of kind
HandshakeFailed — although isConnected() is indeed false afterward. -/
theorem c5_counterexample :
    let m : FTPConnection :=
      { client := 0,
        config := { host := some "ftp.invalid.test", port := some 21,
                    user := none, password := none, secure := none,
                    secureOptions := none },
        connected := false }
    let r := m.connect (.error "ECONNREFUSED")
    r.err = some (Thrown.jsError "FTP connection failed: ECONNREFUSED") ∧
    Thrown.isTypedOfKind (Thrown.jsError "FTP connection failed: ECONNREFUSED")
      ErrKind.HandshakeFailed = false ∧
    r.state.isConnected = false := by
  decide

/-- C5 (amended): for every FTP/SFTP manager and any failing driver
outcome, connect() rejects — but with a plain Error whose message embeds
the cause's message text, not a typed error carrying kind, backend type and
opaque cause — and isConnected() is false afterward. -/
theorem c5_connect_failure_wrapped (m : FTPConnection) (msg : String)
    (m' : SFTPConnection) (msg' : String) :
    ((m.connect (.error msg)).err =
      some (Thrown.jsError ("FTP connection failed: " ++ msg)) ∧
     (m.connect (.error msg)).state.isConnected = false) ∧
    ((m'.connect (.error msg')).err =
      some (Thrown.jsError ("SFTP connection failed: " ++ msg')) ∧
     (m'.connect (.error msg')).state.isConnected = false) :=
  ⟨⟨rfl, rfl⟩, ⟨rfl, rfl⟩⟩

/-- C6 counterexample: a freshly constructed FTP manager, on which no
successful connect() has occurred, has getClient() fail and return no
handle as the claim says — but the thrown value is a plain Error with no
kind field: by the taxonomy's own kind test it is not an error of kind
NotConnected, so the claim's error-kind requirement fails. -/
theorem c6_counterexample :
    let m : FTPConnection :=
      { client := 0,
        config := { host := some "ftp.unreached.test", port := some 21,
                    user := none, password := none, secure := none,
                    secureOptions := none },
        connected := false }
    m.getClient =
      .error (Thrown.jsError "FTP not connected. Call connect() first.") ∧
    Thrown.isTypedOfKind
      (Thrown.jsError "FTP not connected. Call connect() first.")
      ErrKind.NotConnected = false := by
  exact ⟨rfl, rfl⟩

/-- C6 (amended): for every handshake-based manager (FTP/SFTP) and every
sequence of operations containing no successful connect, getClient() fails
and returns no handle — but with the class's plain not-connected Error, a
value with no kind field, not a typed error of kind NotConnected.  (For the
object-storage manager the successful connect coincides with construction —
§2/§4.3 of the spec — so no post-construction state precedes it.) -/
theorem c6_getClient_not_connected
    (fcfg : FTPConfig) (fref : Nat) (fops : List FTPOp)
    (hf : ∀ op ∈ fops, op.isSuccessfulConnect = false)
    (scfg : SFTPConfig) (sref : Nat) (sops : List SFTPOp)
    (hs : ∀ op ∈ sops, op.isSuccessfulConnect = false) :
    (∀ fm : FTPConnection, (FTPConnection.construct fcfg fref).result = .ok fm →
      (fm.runOps fops).getClient =
        .error (Thrown.jsError "FTP not connected. Call connect() first.")) ∧
    Thrown.isTypedOfKind
      (Thrown.jsError "FTP not connected. Call connect() first.")
      ErrKind.NotConnected = false ∧
    (∀ sm : SFTPConnection, (SFTPConnection.construct scfg sref).result = .ok sm →
      (sm.runOps sops).getClient =
        .error (Thrown.jsError "SFTP not connected. Call connect() first.")) ∧
    Thrown.isTypedOfKind
      (Thrown.jsError "SFTP not connected. Call connect() first.")
      ErrKind.NotConnected = false := by
  refine ⟨?_, rfl, ?_, rfl⟩
  · intro fm hfm
    have hfm' : ({ client := fref, config := fcfg, connected := false } :
        FTPConnection) = fm := by
      simpa [FTPConnection.construct] using hfm
    subst hfm'
    have hc := ftp_runOps_unconnected
      { client := fref, config := fcfg, connected := false } fops rfl hf
    simp [FTPConnection.getClient, hc]
  · intro sm hsm
    have hsm' : ({ client := sref, config := scfg, connected := false } :
        SFTPConnection) = sm := by
      simpa [SFTPConnection.construct] using hsm
    subst hsm'
    have hc := sftp_runOps_unconnected
      { client := sref, config := scfg, connected := false } sops rfl hs
    simp [SFTPConnection.getClient, hc]

/-- Witness for C6 at a concrete config and a trace of one failed connect
followed by a disconnect. -/
theorem c6_witness :
    (({ client := 0,
        config := { host := some "ftp.invalid.test", port := some 21,
                    user := none, password := none, secure := none,
                    secureOptions := none },
        connected := false } : FTPConnection).runOps
      [FTPOp.connect (.error "ETIMEDOUT"), FTPOp.disconnect]).getClient =
      .error (Thrown.jsError "FTP not connected. Call connect() first.") := by
  exact (c6_getClient_not_connected
    { host := some "ftp.invalid.test", port := some 21, user := none,
      password := none, secure := none, secureOptions := none } 0
    [FTPOp.connect (.error "ETIMEDOUT"), FTPOp.disconnect]
    (by decide)
    { host := none, port := none, username := none, password := none,
      privateKey := none, passphrase := none } 0 []
    (by decide)).1 _ rfl

/-- C7 counterexample: for the object-storage manager the second
disconnect() is not a no-op: its guard tests the always-truthy client field
rather than the connected flag, so the second call invokes
client.destroy() on the handle again (though nothing is thrown and the
state is unchanged). -/
theorem c7_counterexample :
    let m : S3Connection :=
      { client := 5,
        config := { region := some "us-east-1", credentials := none,
                    endpoint := none, forcePathStyle := none },
        connected := true }
    let d1 := m.disconnect
    let d2 := d1.state.disconnect
    d1.err = none ∧ d2.err = none ∧
    d2.effects = [Effect.s3Destroy 5] ∧ d2.effects ≠ [] := by
  exact ⟨rfl, rfl, rfl, by decide⟩

/-- C7 (amended): disconnect() never throws and a second disconnect() never
changes the state; for FTP/SFTP the second call performs no driver call at
all, while for the object-storage manager the second call invokes
client.destroy() again, because its guard tests the always-truthy client
field instead of the connected flag. -/
theorem c7_disconnect_twice (m : S3Connection) (f : FTPConnection)
    (s : SFTPConnection) :
    (m.disconnect.err = none ∧ m.disconnect.state.disconnect.err = none ∧
      m.disconnect.state.disconnect.state = m.disconnect.state ∧
      m.disconnect.state.disconnect.effects = [Effect.s3Destroy m.client]) ∧
    (f.disconnect.err = none ∧ f.disconnect.state.disconnect.err = none ∧
      f.disconnect.state.disconnect.state = f.disconnect.state ∧
      f.disconnect.state.disconnect.effects = []) ∧
    (s.disconnect.err = none ∧ s.disconnect.state.disconnect.err = none ∧
      s.disconnect.state.disconnect.state = s.disconnect.state ∧
      s.disconnect.state.disconnect.effects = []) := by
  refine ⟨⟨rfl, rfl, rfl, rfl⟩, ?_, ?_⟩
  · cases hf : f.connected <;> simp [FTPConnection.disconnect, hf]
  · cases hs : s.connected <;> simp [SFTPConnection.disconnect, hs]

/-- C8: for every object-storage config carrying a region, construction
yields a manager whose isConnected() is true, having performed only local
(non-network) driver work; FTP/SFTP managers constructed from any config
report isConnected() false after every sequence of operations containing no
successful connect. -/
theorem c8_eager_s3_lazy_handshake
    (cfg : S3Config) (ref : Nat) (hreg : cfg.region.isSome = true)
    (fcfg : FTPConfig) (fref : Nat) (fops : List FTPOp)
    (hf : ∀ op ∈ fops, op.isSuccessfulConnect = false)
    (scfg : SFTPConfig) (sref : Nat) (sops : List SFTPOp)
    (hs : ∀ op ∈ sops, op.isSuccessfulConnect = false) :
    (∀ m : S3Connection, (S3Connection.construct cfg ref).result = .ok m →
      m.isConnected = true) ∧
    ((S3Connection.construct cfg ref).effects.all fun e => !e.isNetwork) = true ∧
    (∀ fm : FTPConnection, (FTPConnection.construct fcfg fref).result = .ok fm →
      (fm.runOps fops).isConnected = false) ∧
    (∀ sm : SFTPConnection, (SFTPConnection.construct scfg sref).result = .ok sm →
      (sm.runOps sops).isConnected = false) := by
  refine ⟨?_, rfl, ?_, ?_⟩
  · intro m hm
    have hm' : ({ client := ref, config := cfg, connected := true } :
        S3Connection) = m := by
      simpa [S3Connection.construct] using hm
    subst hm'
    rfl
  · intro fm hfm
    have hfm' : ({ client := fref, config := fcfg, connected := false } :
        FTPConnection) = fm := by
      simpa [FTPConnection.construct] using hfm
    subst hfm'
    exact ftp_runOps_unconnected _ fops rfl hf
  · intro sm hsm
    have hsm' : ({ client := sref, config := scfg, connected := false } :
        SFTPConnection) = sm := by
      simpa [SFTPConnection.construct] using hsm
    subst hsm'
    exact sftp_runOps_unconnected _ sops rfl hs

/-- Witness for C8 at a concrete region-bearing config and a concrete SFTP
trace of one failed connect. -/
theorem c8_witness :
    (∀ m : S3Connection,
      (S3Connection.construct
        { region := some "us-east-1", credentials := none, endpoint := none,
          forcePathStyle := none } 3).result = .ok m → m.isConnected = true) ∧
    (({ client := 4,
        config := { host := some "sftp.invalid.test", port := none,
                    username := none, password := none, privateKey := none,
                    passphrase := none },
        connected := false } : SFTPConnection).runOps
      [SFTPOp.connect (.error "EHOSTUNREACH")]).isConnected = false := by
  have h := c8_eager_s3_lazy_handshake
    { region := some "us-east-1", credentials := none, endpoint := none,
      forcePathStyle := none } 3 rfl
    { host := none, port := none, user := none, password := none,
      secure := none, secureOptions := none } 0 [] (by decide)
    { host := some "sftp.invalid.test", port := none, username := none,
      password := none, privateKey := none, passphrase := none } 4
    [SFTPOp.connect (.error "EHOSTUNREACH")] (by decide)
  exact ⟨h.1, h.2.2.2 _ rfl⟩

/-- C9: for every instance of each connection class, in every state
(including after disconnect()), getClient() returns the stored handle
exactly when isConnected() is true and fails with the class's not-connected
error exactly when isConnected() is false. -/
theorem c9_getClient_iff_connected :
    (∀ m : S3Connection,
      (m.getClient = .ok m.client ↔ m.isConnected = true) ∧
      (m.getClient = .error (Thrown.jsError "S3 connection not initialized") ↔
        m.isConnected = false)) ∧
    (∀ m : FTPConnection,
      (m.getClient = .ok m.client ↔ m.isConnected = true) ∧
      (m.getClient =
          .error (Thrown.jsError "FTP not connected. Call connect() first.") ↔
        m.isConnected = false)) ∧
    (∀ m : SFTPConnection,
      (m.getClient = .ok m.client ↔ m.isConnected = true) ∧
      (m.getClient =
          .error (Thrown.jsError "SFTP not connected. Call connect() first.") ↔
        m.isConnected = false)) := by
  refine ⟨fun m => ?_, fun m => ?_, fun m => ?_⟩ <;>
    cases hm : m.connected <;>
      simp [S3Connection.getClient, S3Connection.isConnected,
        FTPConnection.getClient, FTPConnection.isConnected,
        SFTPConnection.getClient, SFTPConnection.isConnected, hm]

/-- C10: after a failed connect() an FTP/SFTP manager is unconnected and a
retry is not blocked by any state check: the retry performs a fresh
handshake driver call and, when that handshake succeeds, throws nothing and
leaves isConnected() true. -/
theorem c10_retry_after_failure (m : FTPConnection) (msg : String)
    (m' : SFTPConnection) (msg' : String) :
    let r1 := m.connect (.error msg)
    let r2 := r1.state.connect (.ok ())
    let t1 := m'.connect (.error msg')
    let t2 := t1.state.connect (.ok ())
    (r1.state.isConnected = false ∧
      r2.effects = [Effect.ftpAccess m.client m.accessArgs] ∧
      r2.err = none ∧ r2.state.isConnected = true) ∧
    (t1.state.isConnected = false ∧
      t2.effects = [Effect.sftpConnect m'.client m'.connectArgs] ∧
      t2.err = none ∧ t2.state.isConnected = true) := by
  exact ⟨⟨rfl, rfl, rfl, rfl⟩, ⟨rfl, rfl, rfl, rfl⟩⟩
